import Mathlib

/-!
# Verification of the car-rental booking/availability engine

Shallow embedding of the storage layer (`DatabaseStorage` in the server
source) and of the REST handlers that the claims concern, over an explicit
database state.  Identifiers generated by the database (`gen_random_uuid()`)
are modelled as natural numbers drawn from a counter `nextId` carried in the
state; dates and timestamps are integers; SQL `decimal` money columns and
the JavaScript numbers derived from them are rationals; `varchar` status and
role columns are strings, compared exactly as the source compares them.
-/

namespace JavaDrive

/-- A row of the `users` table. -/
structure User where
  id : Nat
  email : Option String
  firstName : Option String
  lastName : Option String
  profileImageUrl : Option String
  role : String
  governmentId : Option String
  createdAt : Int
  updatedAt : Int
  deriving Repr, DecidableEq

/-- A row of the `cars` table. -/
structure Car where
  id : Nat
  ownerId : Nat
  brand : String
  model : String
  year : Int
  registrationNumber : String
  carType : String
  transmission : String
  fuelType : String
  seats : Int
  pricePerDay : Rat
  images : List String
  features : Option (List String)
  description : Option String
  isAvailable : Bool
  createdAt : Int
  updatedAt : Int
  deriving Repr, DecidableEq

/-- A row of the `bookings` table. -/
structure Booking where
  id : Nat
  carId : Nat
  userId : Nat
  startDate : Int
  endDate : Int
  totalCost : Rat
  status : String
  paymentStatus : String
  createdAt : Int
  updatedAt : Int
  deriving Repr, DecidableEq

/-- A row of the `payments` table. -/
structure Payment where
  id : Nat
  bookingId : Nat
  amount : Rat
  currency : String
  razorpayOrderId : Option String
  razorpayPaymentId : Option String
  status : String
  createdAt : Int
  updatedAt : Int
  deriving Repr, DecidableEq

/-- A row of the `reviews` table. -/
structure Review where
  id : Nat
  carId : Nat
  userId : Nat
  rating : Int
  comment : Option String
  ownerResponse : Option String
  createdAt : Int
  updatedAt : Int
  deriving Repr, DecidableEq

/-- The persistent store: one list per table, plus the id generator. -/
structure DB where
  users : List User
  cars : List Car
  bookings : List Booking
  payments : List Payment
  reviews : List Review
  nextId : Nat
  deriving Repr, DecidableEq

/-- Model of `ORDER BY created_at DESC`: sort the rows newest first. -/
def byCreatedDesc (l : List Booking) : List Booking :=
  l.insertionSort (fun a b => b.createdAt ≤ a.createdAt)

/-- Model of `ORDER BY created_at DESC` for reviews. -/
def reviewsByCreatedDesc (l : List Review) : List Review :=
  l.insertionSort (fun a b => b.createdAt ≤ a.createdAt)

/-- Embeds `DatabaseStorage.getUser`: select the (first) user with the given id. -/
def getUser (db : DB) (id : Nat) : Option User :=
  db.users.find? (fun u => u.id == id)

/-- Embeds `DatabaseStorage.getCarById`. -/
def getCarById (db : DB) (id : Nat) : Option Car :=
  db.cars.find? (fun c => c.id == id)

/-- Embeds `DatabaseStorage.getCarsByOwner`: all cars whose `ownerId` matches. -/
def getCarsByOwner (db : DB) (ownerId : Nat) : List Car :=
  db.cars.filter (fun c => c.ownerId == ownerId)

/-- Embeds `DatabaseStorage.getAllBookings`: every booking, newest first. -/
def getAllBookings (db : DB) : List Booking :=
  byCreatedDesc db.bookings

/-- Embeds `DatabaseStorage.getBookingsByUser`. -/
def getBookingsByUser (db : DB) (userId : Nat) : List Booking :=
  byCreatedDesc (db.bookings.filter (fun b => b.userId == userId))

/-- Embeds `DatabaseStorage.getBookingsByOwner`: for each car owned by `ownerId`,
fetch that car's bookings (newest first) and concatenate. -/
def getBookingsByOwner (db : DB) (ownerId : Nat) : List Booking :=
  ((getCarsByOwner db ownerId).map
    (fun car => byCreatedDesc (db.bookings.filter (fun b => b.carId == car.id)))).flatten

/-- The WHERE clause of `DatabaseStorage.checkAvailability`: same car, status
`IN ('confirmed', 'pending')`, and closed-interval overlap
`startDate <= endDate' AND endDate >= startDate'`. -/
def conflictsWith (carId : Nat) (startDate endDate : Int) (b : Booking) : Bool :=
  b.carId == carId &&
    (b.status == "confirmed" || b.status == "pending") &&
    (decide (b.startDate ≤ endDate) && decide (b.endDate ≥ startDate))

/-- Embeds `DatabaseStorage.checkAvailability` as the storage layer runs it: a
SELECT of the overlapping active bookings (no mutation, so the state comes
back unchanged), available iff that result set is empty. -/
def checkAvailabilityOp (db : DB) (carId : Nat) (startDate endDate : Int) :
    Bool × DB :=
  ((db.bookings.filter (conflictsWith carId startDate endDate)).length == 0, db)

/-- The boolean `DatabaseStorage.checkAvailability` returns. -/
def checkAvailability (db : DB) (carId : Nat) (startDate endDate : Int) : Bool :=
  (checkAvailabilityOp db carId startDate endDate).1

/-- Caller-supplied fields of a booking INSERT (`InsertBooking` minus the
columns the zod schema omits: `id`, `createdAt`, `updatedAt`). -/
structure InsertBooking where
  carId : Nat
  userId : Nat
  startDate : Int
  endDate : Int
  totalCost : Rat
  status : String
  paymentStatus : String
  deriving Repr, DecidableEq

/-- Embeds `DatabaseStorage.createBooking`: INSERT with a database-generated id and
`created_at`/`updated_at` defaulting to the current time, RETURNING the row. -/
def createBooking (db : DB) (data : InsertBooking) (now : Int) : Booking × DB :=
  let b : Booking :=
    { id := db.nextId, carId := data.carId, userId := data.userId,
      startDate := data.startDate, endDate := data.endDate,
      totalCost := data.totalCost, status := data.status,
      paymentStatus := data.paymentStatus, createdAt := now, updatedAt := now }
  (b, { db with bookings := db.bookings ++ [b], nextId := db.nextId + 1 })

/-- Caller-supplied fields of a payment INSERT as the booking handler issues
it (`razorpay` identifiers left at their NULL default). -/
structure InsertPayment where
  bookingId : Nat
  amount : Rat
  currency : String
  status : String
  deriving Repr, DecidableEq

/-- Embeds `DatabaseStorage.createPayment`. -/
def createPayment (db : DB) (data : InsertPayment) (now : Int) : Payment × DB :=
  let p : Payment :=
    { id := db.nextId, bookingId := data.bookingId, amount := data.amount,
      currency := data.currency, razorpayOrderId := none,
      razorpayPaymentId := none, status := data.status,
      createdAt := now, updatedAt := now }
  (p, { db with payments := db.payments ++ [p], nextId := db.nextId + 1 })

/-- A `Partial<InsertBooking>` patch: `some` for a field present in the
request body, `none` for an absent one. -/
structure BookingPatch where
  carId : Option Nat := none
  userId : Option Nat := none
  startDate : Option Int := none
  endDate : Option Int := none
  totalCost : Option Rat := none
  status : Option String := none
  paymentStatus : Option String := none
  deriving Repr, DecidableEq

/-- The SET clause of `DatabaseStorage.updateBooking`:
`{ ...bookingData, updatedAt: new Date() }` applied to a row. -/
def applyBookingPatch (p : BookingPatch) (now : Int) (b : Booking) : Booking :=
  { b with
    carId := p.carId.getD b.carId,
    userId := p.userId.getD b.userId,
    startDate := p.startDate.getD b.startDate,
    endDate := p.endDate.getD b.endDate,
    totalCost := p.totalCost.getD b.totalCost,
    status := p.status.getD b.status,
    paymentStatus := p.paymentStatus.getD b.paymentStatus,
    updatedAt := now }

/-- Embeds `DatabaseStorage.updateBooking`: UPDATE the rows WHERE `id` matches,
RETURNING the first updated row (`undefined` when no row matched). -/
def updateBooking (db : DB) (id : Nat) (p : BookingPatch) (now : Int) :
    Option Booking × DB :=
  let updated := db.bookings.map
    (fun b => if b.id == id then applyBookingPatch p now b else b)
  ((updated.filter (fun b => b.id == id)).head?,
    { db with bookings := updated })

/-- A `Partial<InsertPayment>` patch. -/
structure PaymentPatch where
  bookingId : Option Nat := none
  amount : Option Rat := none
  currency : Option String := none
  razorpayOrderId : Option (Option String) := none
  razorpayPaymentId : Option (Option String) := none
  status : Option String := none
  deriving Repr, DecidableEq

/-- The SET clause of `DatabaseStorage.updatePayment`. -/
def applyPaymentPatch (p : PaymentPatch) (now : Int) (pay : Payment) : Payment :=
  { pay with
    bookingId := p.bookingId.getD pay.bookingId,
    amount := p.amount.getD pay.amount,
    currency := p.currency.getD pay.currency,
    razorpayOrderId := p.razorpayOrderId.getD pay.razorpayOrderId,
    razorpayPaymentId := p.razorpayPaymentId.getD pay.razorpayPaymentId,
    status := p.status.getD pay.status,
    updatedAt := now }

/-- Embeds `DatabaseStorage.updatePayment`. -/
def updatePayment (db : DB) (id : Nat) (p : PaymentPatch) (now : Int) :
    Option Payment × DB :=
  let updated := db.payments.map
    (fun pay => if pay.id == id then applyPaymentPatch p now pay else pay)
  ((updated.filter (fun pay => pay.id == id)).head?,
    { db with payments := updated })

/-- Embeds `DatabaseStorage.getPaymentByBookingId`. -/
def getPaymentByBookingId (db : DB) (bookingId : Nat) : Option Payment :=
  db.payments.find? (fun p => p.bookingId == bookingId)

/-- Embeds `DatabaseStorage.getReviewsByCarId`: the car's reviews, newest first. -/
def getReviewsByCarId (db : DB) (carId : Nat) : List Review :=
  reviewsByCreatedDesc (db.reviews.filter (fun r => r.carId == carId))

/-- The arithmetic-mean-with-zero-default formula shared by every rating
call site: `0` on an empty list, otherwise `sum of ratings / count`. -/
def avgRatingOf (l : List Review) : Rat :=
  if l.length = 0 then 0
  else ((l.map (fun r => (r.rating : Rat))).sum) / (l.length : Rat)

/-- Embeds `DatabaseStorage.getAverageRating`: `0` when the car has no reviews,
otherwise the reviews' total rating divided by their count. -/
def getAverageRating (db : DB) (carId : Nat) : Rat :=
  let carReviews := getReviewsByCarId db carId
  if carReviews.length = 0 then 0
  else ((carReviews.map (fun r => (r.rating : Rat))).sum) / (carReviews.length : Rat)

/-- One element of `DatabaseStorage.getAllCars`'s result: a car annotated
with its average rating and review count. -/
structure CarWithRating where
  car : Car
  averageRating : Rat
  reviewCount : Nat
  deriving Repr, DecidableEq

/-- Embeds `DatabaseStorage.getAllCars`: only cars whose `isAvailable` flag is true,
each annotated with the mean of its reviews' ratings (0 when it has none)
and the number of its reviews. -/
def getAllCars (db : DB) : List CarWithRating :=
  (db.cars.filter (fun c => c.isAvailable)).map (fun car =>
    let carReviews := db.reviews.filter (fun r => r.carId == car.id)
    let avgRating :=
      if carReviews.length > 0 then
        ((carReviews.map (fun r => (r.rating : Rat))).sum) / (carReviews.length : Rat)
      else 0
    { car := car, averageRating := avgRating, reviewCount := carReviews.length })

/-- A `Partial<InsertReview>` patch as used by the owner-response handler. -/
structure ReviewPatch where
  carId : Option Nat := none
  userId : Option Nat := none
  rating : Option Int := none
  comment : Option (Option String) := none
  ownerResponse : Option (Option String) := none
  deriving Repr, DecidableEq

/-- The SET clause of `DatabaseStorage.updateReview`. -/
def applyReviewPatch (p : ReviewPatch) (now : Int) (r : Review) : Review :=
  { r with
    carId := p.carId.getD r.carId,
    userId := p.userId.getD r.userId,
    rating := p.rating.getD r.rating,
    comment := p.comment.getD r.comment,
    ownerResponse := p.ownerResponse.getD r.ownerResponse,
    updatedAt := now }

/-- Embeds `DatabaseStorage.updateReview`. -/
def updateReview (db : DB) (id : Nat) (p : ReviewPatch) (now : Int) :
    Option Review × DB :=
  let updated := db.reviews.map
    (fun r => if r.id == id then applyReviewPatch p now r else r)
  ((updated.filter (fun r => r.id == id)).head?,
    { db with reviews := updated })

/-- The write half of the `POST /api/bookings` handler, reached only after
its availability check passed: parse the body into a `(pending, pending)`
booking, insert it, then insert the payment record for the same amount with
the fixed currency. -/
def bookingInsertPhase (db : DB) (userId carId : Nat) (startDate endDate : Int)
    (totalCost : Rat) (now : Int) : Booking × DB :=
  let data : InsertBooking :=
    { carId := carId, userId := userId, startDate := startDate,
      endDate := endDate, totalCost := totalCost,
      status := "pending", paymentStatus := "pending" }
  let (booking, db1) := createBooking db data now
  let (_, db2) := createPayment db1
    { bookingId := booking.id, amount := totalCost,
      currency := "INR", status := "pending" } now
  (booking, db2)

/-- The `POST /api/bookings` handler: check availability; on conflict answer
400 and change nothing; otherwise insert the booking and then the payment.
`paymentInsertFails` models an infrastructure error thrown by the payment
INSERT: the handler's catch block answers 400, and nothing deletes the
already-inserted booking. -/
def postBooking (db : DB) (userId carId : Nat) (startDate endDate : Int)
    (totalCost : Rat) (now : Int) (paymentInsertFails : Bool) :
    Except String Booking × DB :=
  let isAvail := checkAvailability db carId startDate endDate
  if !isAvail then
    (.error "Car is not available for the selected dates", db)
  else
    let data : InsertBooking :=
      { carId := carId, userId := userId, startDate := startDate,
        endDate := endDate, totalCost := totalCost,
        status := "pending", paymentStatus := "pending" }
    let (booking, db1) := createBooking db data now
    if paymentInsertFails then
      (.error "Failed to create booking", db1)
    else
      let (_, db2) := createPayment db1
        { bookingId := booking.id, amount := totalCost,
          currency := "INR", status := "pending" } now
      (.ok booking, db2)

/-- Embeds `GET /api/owner/dashboard` `totalRevenue`: over the owner's bookings,
keep those with `paymentStatus === "paid"` and reduce their `totalCost`. -/
def ownerTotalRevenue (db : DB) (ownerId : Nat) : Rat :=
  ((getBookingsByOwner db ownerId).filter
    (fun b => b.paymentStatus == "paid")).foldl (fun sum b => sum + b.totalCost) 0

/-- Embeds `GET /api/owner/dashboard` `activeBookings`. -/
def ownerActiveBookings (db : DB) (ownerId : Nat) : Nat :=
  ((getBookingsByOwner db ownerId).filter
    (fun b => b.status == "confirmed" || b.status == "pending")).length

/-- The accumulation loop of `GET /api/owner/dashboard`: over the owner's
cars, add up every review's rating (`totalRating`) and the number of
reviews (`totalReviews`). -/
def ownerRatingTotals (db : DB) (ownerId : Nat) : Int × Nat :=
  (getCarsByOwner db ownerId).foldl
    (fun acc car =>
      let revs := getReviewsByCarId db car.id
      (acc.1 + ((revs.map (fun r => r.rating)).foldl (fun s x => s + x) 0),
        acc.2 + revs.length))
    (0, 0)

/-- Embeds `GET /api/owner/dashboard` `averageRating`:
`totalReviews > 0 ? totalRating / totalReviews : 0`. -/
def ownerAverageRating (db : DB) (ownerId : Nat) : Rat :=
  let t := ownerRatingTotals db ownerId
  if t.2 > 0 then (t.1 : Rat) / (t.2 : Rat) else 0

/-- Embeds `GET /api/admin/dashboard` `totalRevenue`: over all bookings, keep those
with `paymentStatus === "paid"` and reduce their `totalCost`. -/
def adminTotalRevenue (db : DB) : Rat :=
  ((getAllBookings db).filter
    (fun b => b.paymentStatus == "paid")).foldl (fun sum b => sum + b.totalCost) 0

/-- Embeds `GET /api/admin/dashboard` `stats.totalCars`: the length of
`getAllCars()`'s result. -/
def adminTotalCars (db : DB) : Nat :=
  (getAllCars db).length

/-- Embeds `GET /api/admin/dashboard` `cars`: `getAllCars()`'s result, each entry
joined with its owner record. -/
def adminCars (db : DB) : List (CarWithRating × Option User) :=
  (getAllCars db).map (fun e => (e, getUser db e.car.ownerId))

/-- Embeds `GET /api/cars/:id` `averageRating`: 404 when the car is unknown,
otherwise `getAverageRating` on it. -/
def carDetailAverageRating (db : DB) (id : Nat) : Option Rat :=
  match getCarById db id with
  | none => none
  | some car => some (getAverageRating db car.id)

/-- The `PUT /api/reviews/:id/response` handler: look up the caller; unless
their `role` is `"owner"` answer 403 and change nothing; otherwise store the
supplied `ownerResponse` on the review via `updateReview`. -/
def putReviewResponse (db : DB) (userId reviewId : Nat)
    (ownerResponse : Option String) (now : Int) :
    Except String (Option Review) × DB :=
  let authorized := match getUser db userId with
    | some u => u.role == "owner"
    | none => false
  if authorized then
    let (r, db1) := updateReview db reviewId { ownerResponse := some ownerResponse } now
    (.ok r, db1)
  else
    (.error "Only owners can respond to reviews", db)

/-! ## Concrete fixtures for scenario checks -/

/-- A user record with the given id and role. -/
def mkUser (id : Nat) (role : String) : User :=
  { id := id, email := none, firstName := none, lastName := none,
    profileImageUrl := none, role := role, governmentId := none,
    createdAt := 0, updatedAt := 0 }

/-- A car record with the given id, owner and listing flag. -/
def mkCar (id ownerId : Nat) (isAvailable : Bool) : Car :=
  { id := id, ownerId := ownerId, brand := "Maruti", model := "Swift",
    year := 2020, registrationNumber := "KA-01", carType := "Hatchback",
    transmission := "Manual", fuelType := "Petrol", seats := 5,
    pricePerDay := 30, images := [], features := none, description := none,
    isAvailable := isAvailable, createdAt := 0, updatedAt := 0 }

/-- A booking record with the given key fields. -/
def mkBooking (id carId userId : Nat) (startDate endDate : Int)
    (totalCost : Rat) (status paymentStatus : String) : Booking :=
  { id := id, carId := carId, userId := userId, startDate := startDate,
    endDate := endDate, totalCost := totalCost, status := status,
    paymentStatus := paymentStatus, createdAt := 0, updatedAt := 0 }

/-- A payment record with the given key fields. -/
def mkPayment (id bookingId : Nat) (amount : Rat) (status : String) : Payment :=
  { id := id, bookingId := bookingId, amount := amount, currency := "INR",
    razorpayOrderId := none, razorpayPaymentId := none, status := status,
    createdAt := 0, updatedAt := 0 }

/-- A review record with the given key fields. -/
def mkReview (id carId userId : Nat) (rating : Int) : Review :=
  { id := id, carId := carId, userId := userId, rating := rating,
    comment := none, ownerResponse := none, createdAt := 0, updatedAt := 0 }

/-- Car 1 (owner 10) with one confirmed booking 2024-06-01 .. 2024-06-05
(dates written as YYYYMMDD integers). -/
def scenarioDB : DB :=
  { users := [mkUser 10 "owner", mkUser 11 "user"],
    cars := [mkCar 1 10 true],
    bookings := [mkBooking 2 1 11 20240601 20240605 150 "confirmed" "pending"],
    payments := [mkPayment 3 2 150 "pending"],
    reviews := [],
    nextId := 100 }

/-- The 1:1 booking/payment invariant: every booking row has exactly one
payment row carrying its id. -/
def paymentInvariant (db : DB) : Prop :=
  ∀ b ∈ db.bookings,
    (db.payments.filter (fun p => p.bookingId == b.id)).length = 1

/-- A store with one car and no bookings, from which two concurrent booking
requests race. -/
def raceDB : DB :=
  { users := [mkUser 10 "owner", mkUser 11 "user", mkUser 12 "user"],
    cars := [mkCar 1 10 true],
    bookings := [], payments := [], reviews := [],
    nextId := 50 }

/-- Car 1 with reviews rated 5, 3 and 4. -/
def ratingDB : DB :=
  { users := [mkUser 10 "owner", mkUser 11 "user"],
    cars := [mkCar 1 10 true],
    bookings := [], payments := [],
    reviews := [mkReview 21 1 11 5, mkReview 22 1 11 3, mkReview 23 1 11 4],
    nextId := 30 }

/-- Cars 1 and 2 belong to owner 10, car 3 to owner 12; bookings: car 1
paid for 100, car 2 pending for 50, car 3 paid for 70. -/
def revenueDB : DB :=
  { users := [mkUser 10 "owner", mkUser 12 "owner", mkUser 11 "user"],
    cars := [mkCar 1 10 true, mkCar 2 10 true, mkCar 3 12 true],
    bookings :=
      [mkBooking 4 1 11 20240601 20240603 100 "completed" "paid",
        mkBooking 5 2 11 20240601 20240603 50 "pending" "pending",
        mkBooking 6 3 11 20240601 20240603 70 "completed" "paid"],
    payments := [], reviews := [],
    nextId := 40 }

/-- Fixture: `revenueDB` with one extra `pending`-payment booking prepended. -/
def revenueDBplus : DB :=
  { revenueDB with
    bookings := mkBooking 7 1 11 20240610 20240612 999 "confirmed" "pending" ::
      revenueDB.bookings }

/-- Owner 10 owns car 1, owner 20 owns car 2; user 11 left review 30 on
car 1. -/
def reviewDB : DB :=
  { users := [mkUser 10 "owner", mkUser 20 "owner", mkUser 11 "user"],
    cars := [mkCar 1 10 true, mkCar 2 20 true],
    bookings := [], payments := [],
    reviews := [mkReview 30 1 11 5],
    nextId := 40 }

/-! ## General lemmas about the embedding -/

theorem byCreatedDesc_perm (l : List Booking) : (byCreatedDesc l).Perm l :=
  List.perm_insertionSort _ l

theorem reviewsByCreatedDesc_perm (l : List Review) :
    (reviewsByCreatedDesc l).Perm l :=
  List.perm_insertionSort _ l

theorem checkAvailability_eq_true_iff (db : DB) (carId : Nat) (s e : Int) :
    checkAvailability db carId s e = true ↔
      ∀ b ∈ db.bookings, b.carId = carId →
        (b.status = "pending" ∨ b.status = "confirmed") →
        ¬(b.startDate ≤ e ∧ s ≤ b.endDate) := by
  unfold checkAvailability checkAvailabilityOp conflictsWith
  simp only [beq_iff_eq, Bool.and_eq_true, Bool.or_eq_true, decide_eq_true_eq,
    ge_iff_le, List.length_eq_zero, List.filter_eq_nil_iff]
  constructor
  · intro h b hb hcar hst hov
    exact h b hb ⟨⟨hcar, by tauto⟩, hov.1, hov.2⟩
  · intro h b hb hc
    exact h b hb hc.1.1 (by tauto) ⟨hc.2.1, hc.2.2⟩

/-- C1: `checkAvailability(carId, s, e)` is true iff no booking for `carId`
with status `pending` or `confirmed` overlaps `[s, e]` under the
closed-interval rule (`bs ≤ e ∧ be ≥ s`); cancelled/completed bookings never
block; the check mutates nothing; and on the spec's scenario (confirmed
booking 2024-06-01..2024-06-05) the range 2024-06-05..2024-06-07 is
unavailable while 2024-06-06..2024-06-07 is available. -/
theorem C1_checkAvailability_correct :
    (∀ (db : DB) (carId : Nat) (s e : Int),
      (checkAvailability db carId s e = true ↔
        ∀ b ∈ db.bookings, b.carId = carId →
          (b.status = "pending" ∨ b.status = "confirmed") →
          ¬(b.startDate ≤ e ∧ s ≤ b.endDate)) ∧
      (checkAvailabilityOp db carId s e).2 = db) ∧
    checkAvailability scenarioDB 1 20240605 20240607 = false ∧
    checkAvailability scenarioDB 1 20240606 20240607 = true :=
  ⟨fun db carId s e => ⟨checkAvailability_eq_true_iff db carId s e, rfl⟩,
    by decide, by decide⟩

/-- C2: `POST /bookings` succeeds iff the availability check passes. On
success it appends exactly one booking in state `(pending, pending)` with a
fresh id and the caller's `totalCost` verbatim, plus exactly one payment
with the new booking's id, the same amount, fixed currency `"INR"` and
status `pending`; every other table is untouched. On an availability
conflict it answers the conflict error and leaves the state unchanged. -/
theorem C2_postBooking_correct :
    ∀ (db : DB) (userId carId : Nat) (s e : Int) (cost : Rat) (now : Int),
      (checkAvailability db carId s e = false →
        postBooking db userId carId s e cost now false =
          (.error "Car is not available for the selected dates", db)) ∧
      (checkAvailability db carId s e = true →
        ∃ b p,
          (postBooking db userId carId s e cost now false).1 = .ok b ∧
          (postBooking db userId carId s e cost now false).2.bookings =
            db.bookings ++ [b] ∧
          (postBooking db userId carId s e cost now false).2.payments =
            db.payments ++ [p] ∧
          (postBooking db userId carId s e cost now false).2.users = db.users ∧
          (postBooking db userId carId s e cost now false).2.cars = db.cars ∧
          (postBooking db userId carId s e cost now false).2.reviews = db.reviews ∧
          b.status = "pending" ∧ b.paymentStatus = "pending" ∧
          b.carId = carId ∧ b.userId = userId ∧
          b.startDate = s ∧ b.endDate = e ∧ b.totalCost = cost ∧
          p.bookingId = b.id ∧ p.amount = cost ∧
          p.currency = "INR" ∧ p.status = "pending") ∧
      (checkAvailability db carId s e = true →
        (∀ b0 ∈ db.bookings, b0.id < db.nextId) →
        ∃ b, (postBooking db userId carId s e cost now false).1 = .ok b ∧
          b.id ∉ db.bookings.map (fun b0 => b0.id)) := by
  intro db userId carId s e cost now
  refine ⟨fun h => ?_, fun h => ?_, fun h hfresh => ?_⟩
  · simp [postBooking, h]
  · refine ⟨(⟨db.nextId, carId, userId, s, e, cost, "pending", "pending",
        now, now⟩ : Booking),
      (⟨db.nextId + 1, db.nextId, cost, "INR", none, none, "pending",
        now, now⟩ : Payment),
      ?_, ?_, ?_, ?_, ?_, ?_, rfl, rfl, rfl, rfl, rfl, rfl, rfl, rfl, rfl,
      rfl, rfl⟩ <;> simp [postBooking, h, createBooking, createPayment]
  · refine ⟨(⟨db.nextId, carId, userId, s, e, cost, "pending", "pending",
        now, now⟩ : Booking),
      by simp [postBooking, h, createBooking, createPayment], ?_⟩
    simp only [List.mem_map, not_exists]
    intro b0 hb0
    have h1 := hfresh b0 hb0.1
    have h2 := hb0.2
    simp only at h2
    omega

/-- Witness for C2 on the scenario database: an overlapping request is
rejected unchanged; a free request inserts the booking/payment pair with a
fresh id. -/
theorem C2_postBooking_witness :
    (postBooking scenarioDB 11 1 20240605 20240607 60 5 false =
      (.error "Car is not available for the selected dates", scenarioDB)) ∧
    (∃ b p,
      (postBooking scenarioDB 11 1 20240606 20240607 60 5 false).1 = .ok b ∧
      (postBooking scenarioDB 11 1 20240606 20240607 60 5 false).2.bookings =
        scenarioDB.bookings ++ [b] ∧
      (postBooking scenarioDB 11 1 20240606 20240607 60 5 false).2.payments =
        scenarioDB.payments ++ [p] ∧
      (postBooking scenarioDB 11 1 20240606 20240607 60 5 false).2.users =
        scenarioDB.users ∧
      (postBooking scenarioDB 11 1 20240606 20240607 60 5 false).2.cars =
        scenarioDB.cars ∧
      (postBooking scenarioDB 11 1 20240606 20240607 60 5 false).2.reviews =
        scenarioDB.reviews ∧
      b.status = "pending" ∧ b.paymentStatus = "pending" ∧
      b.carId = 1 ∧ b.userId = 11 ∧
      b.startDate = 20240606 ∧ b.endDate = 20240607 ∧ b.totalCost = 60 ∧
      p.bookingId = b.id ∧ p.amount = 60 ∧
      p.currency = "INR" ∧ p.status = "pending") ∧
    (∃ b, (postBooking scenarioDB 11 1 20240606 20240607 60 5 false).1 = .ok b ∧
      b.id ∉ scenarioDB.bookings.map (fun b0 => b0.id)) :=
  ⟨(C2_postBooking_correct scenarioDB 11 1 20240605 20240607 60 5).1 (by decide),
    (C2_postBooking_correct scenarioDB 11 1 20240606 20240607 60 5).2.1 (by decide),
    (C2_postBooking_correct scenarioDB 11 1 20240606 20240607 60 5).2.2
      (by decide) (by decide)⟩

/-- C3 refutation at a concrete input: starting from a state satisfying the
1:1 booking/payment invariant, a `POST /bookings` whose payment INSERT
fails answers an error yet leaves the freshly inserted booking in place
with no payment at all — the handler runs no transaction and never deletes
the booking as compensation, so the invariant is broken. -/
theorem C3_no_compensation_on_payment_failure :
    paymentInvariant scenarioDB ∧
    (postBooking scenarioDB 11 1 20240606 20240607 60 5 true).1 =
      .error "Failed to create booking" ∧
    ∃ b ∈ (postBooking scenarioDB 11 1 20240606 20240607 60 5 true).2.bookings,
      ((postBooking scenarioDB 11 1 20240606 20240607 60 5 true).2.payments.filter
        (fun p => p.bookingId == b.id)).length = 0 := by
  unfold paymentInvariant
  refine ⟨by decide, rfl, by decide⟩

/-- C4: the handler is check-then-insert with no lock between the phases —
whenever the check passes, `POST /bookings` is exactly the unguarded insert
phase. Hence the interleaving in which two requests for car 1 and identical
dates both read the empty store passes both checks, and running both insert
phases leaves two distinct overlapping active bookings on the car — a
double-booking (the final state fails its own availability check). -/
theorem C4_concurrent_double_booking :
    (∀ (db : DB) (userId carId : Nat) (s e : Int) (cost : Rat) (now : Int),
      checkAvailability db carId s e = true →
      postBooking db userId carId s e cost now false =
        ((.ok (bookingInsertPhase db userId carId s e cost now).1),
          (bookingInsertPhase db userId carId s e cost now).2)) ∧
    checkAvailability raceDB 1 20240701 20240703 = true ∧
    ((bookingInsertPhase
        (bookingInsertPhase raceDB 11 1 20240701 20240703 90 7).2
        12 1 20240701 20240703 90 7).2.bookings.filter
      (conflictsWith 1 20240701 20240703)).length = 2 ∧
    checkAvailability
      (bookingInsertPhase
        (bookingInsertPhase raceDB 11 1 20240701 20240703 90 7).2
        12 1 20240701 20240703 90 7).2 1 20240701 20240703 = false := by
  refine ⟨fun db userId carId s e cost now h => ?_, by decide, by decide, by decide⟩
  simp [postBooking, bookingInsertPhase, h, createBooking, createPayment]

/-- Witness for C4's phase-decomposition conjunct at a concrete input. -/
theorem C4_concurrent_double_booking_witness :
    postBooking raceDB 11 1 20240701 20240703 90 7 false =
      ((.ok (bookingInsertPhase raceDB 11 1 20240701 20240703 90 7).1),
        (bookingInsertPhase raceDB 11 1 20240701 20240703 90 7).2) :=
  C4_concurrent_double_booking.1 raceDB 11 1 20240701 20240703 90 7 (by decide)

/-! ## Rating-aggregation lemmas -/

theorem avgRatingOf_perm (l l' : List Review) (h : l.Perm l') :
    avgRatingOf l = avgRatingOf l' := by
  unfold avgRatingOf
  rw [h.length_eq, (h.map (fun r => (r.rating : Rat))).sum_eq]

theorem getAverageRating_eq_avgRatingOf (db : DB) (carId : Nat) :
    getAverageRating db carId =
      avgRatingOf (db.reviews.filter (fun r => r.carId == carId)) := by
  unfold getAverageRating getReviewsByCarId
  rw [show (fun r : Review => r.carId == carId) = fun r => r.carId == carId from rfl]
  exact avgRatingOf_perm _ _ (reviewsByCreatedDesc_perm _)

theorem sum_ratings_nonneg (l : List Review) (h : ∀ r ∈ l, 1 ≤ r.rating) :
    0 ≤ (l.map (fun r => (r.rating : Rat))).sum := by
  induction l with
  | nil => simp
  | cons r t ih =>
    simp only [List.map_cons, List.sum_cons]
    have h1 : (1 : Rat) ≤ (r.rating : Rat) := by
      exact_mod_cast h r (by simp)
    have h2 := ih (fun x hx => h x (by simp [hx]))
    linarith

theorem sum_ratings_le (l : List Review) (h : ∀ r ∈ l, r.rating ≤ 5) :
    (l.map (fun r => (r.rating : Rat))).sum ≤ 5 * (l.length : Rat) := by
  induction l with
  | nil => simp
  | cons r t ih =>
    simp only [List.map_cons, List.sum_cons, List.length_cons]
    have h1 : (r.rating : Rat) ≤ 5 := by
      exact_mod_cast h r (by simp)
    have h2 := ih (fun x hx => h x (by simp [hx]))
    push_cast
    linarith

theorem avgRatingOf_bounds (l : List Review)
    (h : ∀ r ∈ l, 1 ≤ r.rating ∧ r.rating ≤ 5) :
    0 ≤ avgRatingOf l ∧ avgRatingOf l ≤ 5 := by
  unfold avgRatingOf
  by_cases hl : l.length = 0
  · simp [hl]
  · have hpos : (0 : Rat) < (l.length : Rat) := by
      exact_mod_cast Nat.pos_of_ne_zero hl
    have hs0 := sum_ratings_nonneg l (fun r hr => (h r hr).1)
    have hs5 := sum_ratings_le l (fun r hr => (h r hr).2)
    rw [if_neg hl]
    constructor
    · positivity
    · rw [div_le_iff₀ hpos]
      linarith

theorem foldl_add_int (l : List Int) (a : Int) :
    l.foldl (fun s x => s + x) a = a + l.sum := by
  induction l generalizing a with
  | nil => simp
  | cons x t ih => simp [ih, add_assoc]

theorem intSum_cast_ratings (l : List Review) :
    (l.map (fun r => (r.rating : Rat))).sum =
      (((l.map (fun r => r.rating)).sum : Int) : Rat) := by
  induction l with
  | nil => simp
  | cons r t ih => simp [ih]

theorem ownerRatingTotals_spec (db : DB) (cs : List Car) (acc : Int × Nat) :
    cs.foldl
      (fun acc car =>
        let revs := getReviewsByCarId db car.id
        (acc.1 + ((revs.map (fun r => r.rating)).foldl (fun s x => s + x) 0),
          acc.2 + revs.length)) acc =
    (acc.1 +
        ((cs.map (fun car => getReviewsByCarId db car.id)).flatten.map
          (fun r => r.rating)).sum,
      acc.2 + (cs.map (fun car => getReviewsByCarId db car.id)).flatten.length) := by
  induction cs generalizing acc with
  | nil => simp
  | cons c t ih =>
    simp only [List.foldl_cons, List.map_cons, List.flatten_cons,
      List.map_append, List.sum_append, List.length_append]
    rw [ih]
    simp [foldl_add_int, add_assoc]

theorem ownerAverageRating_eq_avgRatingOf (db : DB) (ownerId : Nat) :
    ownerAverageRating db ownerId =
      avgRatingOf ((getCarsByOwner db ownerId).map
        (fun car => getReviewsByCarId db car.id)).flatten := by
  unfold ownerAverageRating ownerRatingTotals avgRatingOf
  rw [ownerRatingTotals_spec]
  simp only [zero_add]
  by_cases hl :
      ((getCarsByOwner db ownerId).map
        (fun car => getReviewsByCarId db car.id)).flatten.length = 0
  · simp [hl]
  · rw [if_pos (Nat.pos_of_ne_zero hl), if_neg hl, intSum_cast_ratings]

/-- C5: `getAverageRating` is the arithmetic mean of the car's review
ratings (the shared formula `avgRatingOf`), `0` when the car has no
reviews; with ratings `[5,3,4]` it is exactly `4`; when every stored rating
lies in `[1,5]` the result lies in `[0,5]`; and the car-list annotation,
the car-detail endpoint and the owner-dashboard aggregate all compute with
that same formula. -/
theorem C5_getAverageRating_correct :
    (∀ (db : DB) (carId : Nat),
      getAverageRating db carId =
        avgRatingOf (db.reviews.filter (fun r => r.carId == carId))) ∧
    (∀ (db : DB) (carId : Nat),
      db.reviews.filter (fun r => r.carId == carId) = [] →
      getAverageRating db carId = 0) ∧
    getAverageRating ratingDB 1 = 4 ∧
    (∀ (db : DB) (carId : Nat),
      (∀ r ∈ db.reviews, 1 ≤ r.rating ∧ r.rating ≤ 5) →
      0 ≤ getAverageRating db carId ∧ getAverageRating db carId ≤ 5) ∧
    (∀ (db : DB) (entry : CarWithRating), entry ∈ getAllCars db →
      entry.averageRating = getAverageRating db entry.car.id ∧
      entry.reviewCount =
        (db.reviews.filter (fun r => r.carId == entry.car.id)).length) ∧
    (∀ (db : DB) (id : Nat) (car : Car), getCarById db id = some car →
      carDetailAverageRating db id = some (getAverageRating db id)) ∧
    (∀ (db : DB) (ownerId : Nat),
      ownerAverageRating db ownerId =
        avgRatingOf ((getCarsByOwner db ownerId).map
          (fun car => getReviewsByCarId db car.id)).flatten) := by
  refine ⟨getAverageRating_eq_avgRatingOf, ?_, ?_, ?_, ?_, ?_,
    ownerAverageRating_eq_avgRatingOf⟩
  · intro db carId h
    rw [getAverageRating_eq_avgRatingOf, h]
    simp [avgRatingOf]
  · norm_num [getAverageRating, getReviewsByCarId, reviewsByCreatedDesc,
      ratingDB, mkReview, List.insertionSort, List.orderedInsert]
  · intro db carId h
    rw [getAverageRating_eq_avgRatingOf]
    exact avgRatingOf_bounds _
      (fun r hr => h r (List.mem_filter.mp hr).1)
  · intro db entry hmem
    unfold getAllCars at hmem
    obtain ⟨car, hcar, hentry⟩ := List.mem_map.mp hmem
    subst hentry
    refine ⟨?_, rfl⟩
    rw [getAverageRating_eq_avgRatingOf]
    unfold avgRatingOf
    by_cases hl : (db.reviews.filter (fun r => r.carId == car.id)).length = 0
    · simp [hl]
    · simp [hl, Nat.pos_of_ne_zero hl]
  · intro db id car h
    have hid : car.id = id := by
      have := List.find?_some h
      simpa using this
    unfold carDetailAverageRating
    rw [h]
    simp [hid]

/-- Witness for C5 on the concrete review store: a reviewless car averages
0, the `[5,3,4]` car's mean is within `[0,5]`, the car-list entry agrees
with `getAverageRating`, and the car-detail endpoint returns exactly it. -/
theorem C5_getAverageRating_witness :
    getAverageRating ratingDB 2 = 0 ∧
    (0 ≤ getAverageRating ratingDB 1 ∧ getAverageRating ratingDB 1 ≤ 5) ∧
    ((⟨mkCar 1 10 true, 4, 3⟩ : CarWithRating)).averageRating =
      getAverageRating ratingDB (mkCar 1 10 true).id ∧
    carDetailAverageRating ratingDB 1 = some (getAverageRating ratingDB 1) := by
  have hmem : (⟨mkCar 1 10 true, 4, 3⟩ : CarWithRating) ∈ getAllCars ratingDB := by
    simp only [getAllCars, ratingDB, mkCar, mkReview]
    norm_num [List.filter, List.mem_singleton]
  exact ⟨C5_getAverageRating_correct.2.1 ratingDB 2 (by decide),
    C5_getAverageRating_correct.2.2.2.1 ratingDB 1 (by decide),
    (C5_getAverageRating_correct.2.2.2.2.1 ratingDB _ hmem).1,
    C5_getAverageRating_correct.2.2.2.2.2.1 ratingDB 1 (mkCar 1 10 true)
      (by decide)⟩

/-! ## Revenue lemmas -/

theorem list_any_map {α β : Type} (l : List α) (f : α → β) (p : β → Bool) :
    (l.map f).any p = l.any (fun a => p (f a)) := by
  induction l with
  | nil => rfl
  | cons x t ih => simp [List.any_cons, ih]

theorem foldl_add_rat (l : List Booking) (a : Rat) :
    l.foldl (fun s b => s + b.totalCost) a =
      a + (l.map (fun b => b.totalCost)).sum := by
  induction l generalizing a with
  | nil => simp
  | cons x t ih => simp [ih, add_assoc]

theorem revenueOf_perm (l l' : List Booking) (h : l.Perm l') :
    ((l.filter (fun b => b.paymentStatus == "paid")).map
      (fun b => b.totalCost)).sum =
    ((l'.filter (fun b => b.paymentStatus == "paid")).map
      (fun b => b.totalCost)).sum :=
  ((h.filter _).map _).sum_eq

theorem adminTotalRevenue_eq (db : DB) :
    adminTotalRevenue db =
      ((db.bookings.filter (fun b => b.paymentStatus == "paid")).map
        (fun b => b.totalCost)).sum := by
  unfold adminTotalRevenue getAllBookings
  rw [foldl_add_rat, zero_add]
  exact revenueOf_perm _ _ (byCreatedDesc_perm _)

theorem sum_filter_or_disjoint (l : List Booking) (A B : Booking → Bool)
    (h : ∀ b ∈ l, ¬(A b = true ∧ B b = true)) :
    ((l.filter (fun b => A b || B b)).map (fun b => b.totalCost)).sum =
      ((l.filter A).map (fun b => b.totalCost)).sum +
        ((l.filter B).map (fun b => b.totalCost)).sum := by
  induction l with
  | nil => simp
  | cons x t ih =>
    have ht := ih (fun b hb => h b (by simp [hb]))
    have hx := h x (by simp)
    cases hA : A x <;> cases hB : B x
    · simp [List.filter_cons, hA, hB, ht]
    · simp [List.filter_cons, hA, hB, ht]
      ring
    · simp [List.filter_cons, hA, hB, ht]
      ring
    · exact absurd ⟨hA, hB⟩ hx

theorem ownerTotalRevenue_eq_perCar (db : DB) (ownerId : Nat) :
    ownerTotalRevenue db ownerId =
      ((getCarsByOwner db ownerId).map (fun car =>
        ((db.bookings.filter
            (fun b => b.paymentStatus == "paid" && b.carId == car.id)).map
          (fun b => b.totalCost)).sum)).sum := by
  unfold ownerTotalRevenue getBookingsByOwner
  rw [foldl_add_rat, zero_add]
  induction getCarsByOwner db ownerId with
  | nil => simp
  | cons c cs ih =>
    simp only [List.map_cons, List.flatten_cons, List.filter_append,
      List.map_append, List.sum_append, List.sum_cons]
    rw [ih]
    congr 1
    rw [revenueOf_perm _ _ (byCreatedDesc_perm _), List.filter_filter]

theorem sum_filter_anyMem (l : List Booking) (ids : List Nat)
    (hnd : ids.Nodup) :
    ((l.filter (fun b =>
        b.paymentStatus == "paid" && ids.any (fun i => i == b.carId))).map
      (fun b => b.totalCost)).sum =
    (ids.map (fun i =>
      ((l.filter (fun b => b.paymentStatus == "paid" && b.carId == i)).map
        (fun b => b.totalCost)).sum)).sum := by
  induction ids with
  | nil => simp
  | cons i ids ih =>
    have hni : i ∉ ids := (List.nodup_cons.mp hnd).1
    have hnd' : ids.Nodup := (List.nodup_cons.mp hnd).2
    simp only [List.map_cons, List.sum_cons]
    rw [← ih hnd']
    have hbeq : ∀ a b : Nat, (a == b) = (b == a) := by
      intro a b
      by_cases hab : a = b
      · simp [hab]
      · have hba : ¬b = a := fun hh => hab hh.symm
        simp [hab, hba]
    have hpred : ∀ b : Booking,
        (b.paymentStatus == "paid" && (i :: ids).any (fun j => j == b.carId)) =
          ((b.paymentStatus == "paid" && b.carId == i) ||
            (b.paymentStatus == "paid" && ids.any (fun j => j == b.carId))) := by
      intro b
      simp only [List.any_cons]
      rw [hbeq i b.carId, Bool.and_or_distrib_left]
    rw [List.filter_congr (fun b _ => hpred b)]
    exact sum_filter_or_disjoint l _ _
      (by
        intro b _ hab
        obtain ⟨h1, h2⟩ := hab
        simp only [Bool.and_eq_true, beq_iff_eq, List.any_eq_true] at h1 h2
        obtain ⟨j, hj, hjb⟩ := h2.2
        exact hni (by
          have : j = i := by omega
          rw [← this]; exact hj))

/-- C6: the admin dashboard's revenue is the sum of `totalCost` over all
bookings with `paymentStatus = "paid"`; the owner dashboard's revenue is
the same sum restricted to bookings on the owner's cars (car ids assumed
unique, as the primary key guarantees); and a booking whose
`paymentStatus` is anything but `"paid"` contributes nothing to either. -/
theorem C6_revenue_correct :
    (∀ db : DB,
      adminTotalRevenue db =
        ((db.bookings.filter (fun b => b.paymentStatus == "paid")).map
          (fun b => b.totalCost)).sum) ∧
    (∀ (db : DB) (ownerId : Nat),
      (db.cars.map (fun c => c.id)).Nodup →
      ownerTotalRevenue db ownerId =
        ((db.bookings.filter (fun b =>
            b.paymentStatus == "paid" &&
            (getCarsByOwner db ownerId).any (fun c => c.id == b.carId))).map
          (fun b => b.totalCost)).sum) ∧
    (∀ (db : DB) (b : Booking), b.paymentStatus ≠ "paid" →
      adminTotalRevenue { db with bookings := b :: db.bookings } =
        adminTotalRevenue db) ∧
    (∀ (db : DB) (ownerId : Nat) (b : Booking), b.paymentStatus ≠ "paid" →
      ownerTotalRevenue { db with bookings := b :: db.bookings } ownerId =
        ownerTotalRevenue db ownerId) := by
  refine ⟨adminTotalRevenue_eq, ?_, ?_, ?_⟩
  · intro db ownerId hnd
    have hsub : ((getCarsByOwner db ownerId).map (fun c => c.id)).Sublist
        (db.cars.map (fun c => c.id)) :=
      (List.filter_sublist db.cars).map _
    have hnd' : ((getCarsByOwner db ownerId).map (fun c => c.id)).Nodup :=
      hnd.sublist hsub
    have h := sum_filter_anyMem db.bookings
      ((getCarsByOwner db ownerId).map (fun c => c.id)) hnd'
    rw [List.map_map] at h
    have h2 : db.bookings.filter (fun b =>
          b.paymentStatus == "paid" &&
          ((getCarsByOwner db ownerId).map (fun c => c.id)).any
            (fun i => i == b.carId)) =
        db.bookings.filter (fun b =>
          b.paymentStatus == "paid" &&
          (getCarsByOwner db ownerId).any (fun c => c.id == b.carId)) := by
      apply List.filter_congr
      intro b _
      show (b.paymentStatus == "paid" &&
          ((getCarsByOwner db ownerId).map (fun c => c.id)).any
            (fun i => i == b.carId)) =
        (b.paymentStatus == "paid" &&
          (getCarsByOwner db ownerId).any (fun c => c.id == b.carId))
      rw [list_any_map]
    rw [h2] at h
    rw [ownerTotalRevenue_eq_perCar]
    exact h.symm
  · intro db b hb
    rw [adminTotalRevenue_eq, adminTotalRevenue_eq]
    simp [List.filter_cons, hb]
  · intro db ownerId b hb
    rw [ownerTotalRevenue_eq_perCar, ownerTotalRevenue_eq_perCar]
    refine congrArg List.sum (List.map_congr_left ?_)
    intro c _
    simp [List.filter_cons, hb]

/-- Witness for C6 on the concrete store: platform revenue 170, owner 10's
revenue 100, and prepending a `pending`-payment booking changes neither. -/
theorem C6_revenue_witness :
    adminTotalRevenue revenueDB = 170 ∧
    ownerTotalRevenue revenueDB 10 = 100 ∧
    adminTotalRevenue revenueDBplus = adminTotalRevenue revenueDB ∧
    ownerTotalRevenue revenueDBplus 10 = ownerTotalRevenue revenueDB 10 := by
  refine ⟨?_, ?_,
    C6_revenue_correct.2.2.1 revenueDB
      (mkBooking 7 1 11 20240610 20240612 999 "confirmed" "pending")
      (by decide),
    C6_revenue_correct.2.2.2 revenueDB 10
      (mkBooking 7 1 11 20240610 20240612 999 "confirmed" "pending")
      (by decide)⟩
  · rw [C6_revenue_correct.1 revenueDB]
    simp +decide [revenueDB, mkBooking, List.filter_cons]
    norm_num
  · rw [C6_revenue_correct.2.1 revenueDB 10 (by decide)]
    simp +decide [revenueDB, mkBooking, mkCar, getCarsByOwner,
      List.filter_cons, List.any_cons]

/-- C7: under referential integrity (every booking's `carId` references an
existing car, as the schema's foreign key guarantees), `checkAvailability`
on a `carId` matching no car returns `true` — vacuously available, with no
not-found error. -/
theorem C7_unknown_car_vacuously_available :
    ∀ (db : DB) (carId : Nat) (s e : Int),
      (∀ b ∈ db.bookings, ∃ c ∈ db.cars, c.id = b.carId) →
      (∀ c ∈ db.cars, c.id ≠ carId) →
      checkAvailability db carId s e = true := by
  intro db carId s e hfk hnc
  rw [checkAvailability_eq_true_iff]
  intro b hb hcar _
  obtain ⟨c, hc, hcid⟩ := hfk b hb
  exact absurd (hcid.trans hcar) (hnc c hc)

/-- Witness for C7: car id 99 matches no car of the scenario store, and the
very dates held by car 1's confirmed booking are reported available. -/
theorem C7_unknown_car_witness :
    checkAvailability scenarioDB 99 20240601 20240605 = true :=
  C7_unknown_car_vacuously_available scenarioDB 99 20240601 20240605
    (by decide) (by decide)

/-- C8 counterexample: caller 20 has role `owner` but is not the
owner-of-record of car 1, which review 30 refers to — yet
`PUT /reviews/30/response` issued by caller 20 succeeds and rewrites the
review's owner response, instead of being rejected with an authorization
error and leaving the review unchanged. The handler checks only the
caller's role, never the reviewed car's `ownerId`. -/
theorem C8_response_not_restricted_to_cars_owner :
    (∃ r ∈ reviewDB.reviews, r.id = 30 ∧ r.carId = 1) ∧
    getCarById reviewDB 1 = some (mkCar 1 10 true) ∧
    (mkCar 1 10 true).ownerId ≠ 20 ∧
    (putReviewResponse reviewDB 20 30 (some "thanks") 9).1 =
      .ok (some { mkReview 30 1 11 5 with
        ownerResponse := some "thanks", updatedAt := 9 }) ∧
    (putReviewResponse reviewDB 20 30 (some "thanks") 9).2.reviews ≠
      reviewDB.reviews := by
  refine ⟨by decide, by decide, by decide, rfl, by decide⟩

/-- C8 as amended: the owner response is gated only on the caller's role —
any caller whose user record is missing or whose role is not `"owner"` is
rejected with the authorization error and the store is unchanged, while any
role-`owner` caller's request performs the `updateReview` write (whether or
not they own the reviewed car). -/
theorem C8_response_role_gate :
    (∀ (db : DB) (userId reviewId : Nat) (resp : Option String) (now : Int),
      (∀ u, getUser db userId = some u → u.role ≠ "owner") →
      putReviewResponse db userId reviewId resp now =
        (.error "Only owners can respond to reviews", db)) ∧
    (∀ (db : DB) (userId reviewId : Nat) (resp : Option String) (now : Int)
        (u : User),
      getUser db userId = some u → u.role = "owner" →
      putReviewResponse db userId reviewId resp now =
        (.ok (updateReview db reviewId { ownerResponse := some resp } now).1,
          (updateReview db reviewId { ownerResponse := some resp } now).2)) := by
  constructor
  · intro db userId reviewId resp now h
    unfold putReviewResponse
    cases hu : getUser db userId with
    | none => simp
    | some u => simp [h u hu]
  · intro db userId reviewId resp now u hu hrole
    unfold putReviewResponse
    simp [hu, hrole]

/-- Witness for the amended C8: role-`user` caller 11 is rejected with the
store unchanged, while non-owning role-`owner` caller 20 gets the write
applied. -/
theorem C8_response_role_gate_witness :
    putReviewResponse reviewDB 11 30 (some "hi") 9 =
      (.error "Only owners can respond to reviews", reviewDB) ∧
    putReviewResponse reviewDB 20 30 (some "hi") 9 =
      (.ok (updateReview reviewDB 30 { ownerResponse := some (some "hi") } 9).1,
        (updateReview reviewDB 30 { ownerResponse := some (some "hi") } 9).2) :=
  ⟨C8_response_role_gate.1 reviewDB 11 30 (some "hi") 9
      (by intro u hu; simp [getUser, reviewDB, mkUser, List.find?] at hu
          rw [← hu]; decide),
    C8_response_role_gate.2 reviewDB 20 30 (some "hi") 9 (mkUser 20 "owner")
      (by decide) rfl⟩

/-! ## Partial-update lemmas -/

theorem filter_key_eq_single {α : Type} (key : α → Nat) :
    ∀ (l : List α), (l.map key).Nodup →
      ∀ (b : α), b ∈ l → ∀ (id : Nat), key b = id →
        l.filter (fun x => key x == id) = [b] := by
  intro l
  induction l with
  | nil => intro _ b hb; exact absurd hb (List.not_mem_nil b)
  | cons x t ih =>
    intro hnd b hb id hbid
    have hx : key x ∉ t.map key := (List.nodup_cons.mp hnd).1
    have hnd' : (t.map key).Nodup := (List.nodup_cons.mp hnd).2
    rcases List.mem_cons.mp hb with hbx | hbt
    · subst hbx
      rw [List.filter_cons_of_pos (by simp [hbid])]
      have hnil : t.filter (fun x => key x == id) = [] := by
        rw [List.filter_eq_nil_iff]
        intro y hy hky
        apply hx
        rw [hbid]
        simp only [beq_iff_eq] at hky
        exact hky ▸ List.mem_map_of_mem key hy
      rw [hnil]
    · have hxid : key x ≠ id := by
        intro hxe
        apply hx
        rw [hxe, ← hbid]
        exact List.mem_map_of_mem key hbt
      rw [List.filter_cons_of_neg (by simp [hxid])]
      exact ih hnd' b hbt id hbid

/-- C9: `updateBooking`/`updatePayment` return `undefined` and leave the
store untouched when no row has the id; otherwise (ids unique, as the
primary key guarantees) they return the matched row with exactly the
patched fields overwritten, the modification timestamp set to the current
time, every other field (id and `createdAt` included) preserved, and every
other row kept; no status transition is constrained — a patch's status
string overwrites the current one whatever both are. -/
theorem C9_partial_updates_correct :
    (∀ (db : DB) (id : Nat) (p : BookingPatch) (now : Int),
      (∀ b ∈ db.bookings, b.id ≠ id) →
      updateBooking db id p now = (none, db)) ∧
    (∀ (db : DB) (id : Nat) (p : PaymentPatch) (now : Int),
      (∀ q ∈ db.payments, q.id ≠ id) →
      updatePayment db id p now = (none, db)) ∧
    (∀ (db : DB) (id : Nat) (p : BookingPatch) (now : Int) (b : Booking),
      (db.bookings.map (fun x => x.id)).Nodup → b ∈ db.bookings → b.id = id →
      (updateBooking db id p now).1 = some (applyBookingPatch p now b) ∧
      applyBookingPatch p now b ∈ (updateBooking db id p now).2.bookings ∧
      (∀ b' ∈ db.bookings, b'.id ≠ id →
        b' ∈ (updateBooking db id p now).2.bookings) ∧
      (updateBooking db id p now).2.payments = db.payments ∧
      (updateBooking db id p now).2.users = db.users ∧
      (updateBooking db id p now).2.cars = db.cars ∧
      (updateBooking db id p now).2.reviews = db.reviews) ∧
    (∀ (db : DB) (id : Nat) (p : PaymentPatch) (now : Int) (q : Payment),
      (db.payments.map (fun x => x.id)).Nodup → q ∈ db.payments → q.id = id →
      (updatePayment db id p now).1 = some (applyPaymentPatch p now q) ∧
      applyPaymentPatch p now q ∈ (updatePayment db id p now).2.payments ∧
      (∀ q' ∈ db.payments, q'.id ≠ id →
        q' ∈ (updatePayment db id p now).2.payments) ∧
      (updatePayment db id p now).2.bookings = db.bookings) ∧
    (∀ (p : BookingPatch) (now : Int) (b : Booking),
      (applyBookingPatch p now b).id = b.id ∧
      (applyBookingPatch p now b).carId = p.carId.getD b.carId ∧
      (applyBookingPatch p now b).userId = p.userId.getD b.userId ∧
      (applyBookingPatch p now b).startDate = p.startDate.getD b.startDate ∧
      (applyBookingPatch p now b).endDate = p.endDate.getD b.endDate ∧
      (applyBookingPatch p now b).totalCost = p.totalCost.getD b.totalCost ∧
      (applyBookingPatch p now b).status = p.status.getD b.status ∧
      (applyBookingPatch p now b).paymentStatus =
        p.paymentStatus.getD b.paymentStatus ∧
      (applyBookingPatch p now b).createdAt = b.createdAt ∧
      (applyBookingPatch p now b).updatedAt = now) ∧
    (∀ (p : PaymentPatch) (now : Int) (q : Payment),
      (applyPaymentPatch p now q).id = q.id ∧
      (applyPaymentPatch p now q).bookingId = p.bookingId.getD q.bookingId ∧
      (applyPaymentPatch p now q).amount = p.amount.getD q.amount ∧
      (applyPaymentPatch p now q).currency = p.currency.getD q.currency ∧
      (applyPaymentPatch p now q).razorpayOrderId =
        p.razorpayOrderId.getD q.razorpayOrderId ∧
      (applyPaymentPatch p now q).razorpayPaymentId =
        p.razorpayPaymentId.getD q.razorpayPaymentId ∧
      (applyPaymentPatch p now q).status = p.status.getD q.status ∧
      (applyPaymentPatch p now q).createdAt = q.createdAt ∧
      (applyPaymentPatch p now q).updatedAt = now) ∧
    (∀ (b : Booking) (s : String) (now : Int),
      (applyBookingPatch { status := some s } now b).status = s) := by
  refine ⟨?_, ?_, ?_, ?_,
    fun p now b => ⟨rfl, rfl, rfl, rfl, rfl, rfl, rfl, rfl, rfl, rfl⟩,
    fun p now q => ⟨rfl, rfl, rfl, rfl, rfl, rfl, rfl, rfl, rfl⟩,
    fun b s now => rfl⟩
  · intro db id p now h
    unfold updateBooking
    have hmap : db.bookings.map
        (fun b => if b.id == id then applyBookingPatch p now b else b) =
        db.bookings := by
      rw [List.map_congr_left (fun b hb => if_neg (by simp [h b hb]))]
      exact List.map_id _
    rw [hmap]
    have hfil : db.bookings.filter (fun b => b.id == id) = [] := by
      rw [List.filter_eq_nil_iff]
      intro b hb
      simp [h b hb]
    show ((db.bookings.filter (fun b => b.id == id)).head?,
      { db with bookings := db.bookings }) = (none, db)
    rw [hfil]
    rfl
  · intro db id p now h
    unfold updatePayment
    have hmap : db.payments.map
        (fun q => if q.id == id then applyPaymentPatch p now q else q) =
        db.payments := by
      rw [List.map_congr_left (fun q hq => if_neg (by simp [h q hq]))]
      exact List.map_id _
    rw [hmap]
    have hfil : db.payments.filter (fun q => q.id == id) = [] := by
      rw [List.filter_eq_nil_iff]
      intro q hq
      simp [h q hq]
    show ((db.payments.filter (fun q => q.id == id)).head?,
      { db with payments := db.payments }) = (none, db)
    rw [hfil]
    rfl
  · intro db id p now b hnd hb hbid
    have hf : (db.bookings.map
          (fun x => if x.id == id then applyBookingPatch p now x else x)).filter
        (fun x => x.id == id) =
        (db.bookings.filter (fun x => x.id == id)).map
          (fun x => if x.id == id then applyBookingPatch p now x else x) := by
      rw [List.filter_map]
      congr 1
      apply List.filter_congr
      intro x _
      by_cases hx : x.id = id
      · simp [Function.comp, hx, applyBookingPatch]
      · simp [Function.comp, hx]
    have hsingle := filter_key_eq_single (fun x : Booking => x.id)
      db.bookings hnd b hb id hbid
    refine ⟨?_, ?_, ?_, rfl, rfl, rfl, rfl⟩
    · show ((db.bookings.map
          (fun x => if x.id == id then applyBookingPatch p now x else x)).filter
          (fun x => x.id == id)).head? = _
      rw [hf, hsingle]
      simp [hbid]
    · show applyBookingPatch p now b ∈ db.bookings.map
        (fun x => if x.id == id then applyBookingPatch p now x else x)
      exact List.mem_map.mpr ⟨b, hb, by simp [hbid]⟩
    · intro b' hb' hbid'
      show b' ∈ db.bookings.map
        (fun x => if x.id == id then applyBookingPatch p now x else x)
      exact List.mem_map.mpr ⟨b', hb', by simp [hbid']⟩
  · intro db id p now q hnd hq hqid
    have hf : (db.payments.map
          (fun x => if x.id == id then applyPaymentPatch p now x else x)).filter
        (fun x => x.id == id) =
        (db.payments.filter (fun x => x.id == id)).map
          (fun x => if x.id == id then applyPaymentPatch p now x else x) := by
      rw [List.filter_map]
      congr 1
      apply List.filter_congr
      intro x _
      by_cases hx : x.id = id
      · simp [Function.comp, hx, applyPaymentPatch]
      · simp [Function.comp, hx]
    have hsingle := filter_key_eq_single (fun x : Payment => x.id)
      db.payments hnd q hq id hqid
    refine ⟨?_, ?_, ?_, rfl⟩
    · show ((db.payments.map
          (fun x => if x.id == id then applyPaymentPatch p now x else x)).filter
          (fun x => x.id == id)).head? = _
      rw [hf, hsingle]
      simp [hqid]
    · show applyPaymentPatch p now q ∈ db.payments.map
        (fun x => if x.id == id then applyPaymentPatch p now x else x)
      exact List.mem_map.mpr ⟨q, hq, by simp [hqid]⟩
    · intro q' hq' hqid'
      show q' ∈ db.payments.map
        (fun x => if x.id == id then applyPaymentPatch p now x else x)
      exact List.mem_map.mpr ⟨q', hq', by simp [hqid']⟩

/-- Witness for C9: updating an absent id returns `none` and changes
nothing; updating booking 4 (a `completed` booking) with a
`status := "pending"` patch returns the row with the status overwritten and
the timestamp stamped; updating payment 3 likewise. -/
theorem C9_partial_updates_witness :
    updateBooking scenarioDB 77 { status := some "pending" } 9 =
      (none, scenarioDB) ∧
    updatePayment scenarioDB 77 { status := some "success" } 9 =
      (none, scenarioDB) ∧
    (updateBooking revenueDB 4 { status := some "pending" } 9).1 =
      some (applyBookingPatch { status := some "pending" } 9
        (mkBooking 4 1 11 20240601 20240603 100 "completed" "paid")) ∧
    (updatePayment scenarioDB 3 { status := some "success" } 9).1 =
      some (applyPaymentPatch { status := some "success" } 9
        (mkPayment 3 2 150 "pending")) :=
  ⟨C9_partial_updates_correct.1 scenarioDB 77 { status := some "pending" } 9
      (by decide),
    C9_partial_updates_correct.2.1 scenarioDB 77 { status := some "success" } 9
      (by decide),
    (C9_partial_updates_correct.2.2.1 revenueDB 4 { status := some "pending" } 9
      (mkBooking 4 1 11 20240601 20240603 100 "completed" "paid")
      (by decide) (by decide) rfl).1,
    (C9_partial_updates_correct.2.2.2.1 scenarioDB 3
      { status := some "success" } 9 (mkPayment 3 2 150 "pending")
      (by decide) (by decide) rfl).1⟩

/-- C10: `getAllCars` returns exactly the cars whose listing-level
`isAvailable` flag is true, each annotated with the mean rating of its
reviews (`0` when it has none) and its review count; consequently the admin
dashboard's car list and its `totalCars` statistic silently exclude every
car whose flag is false. -/
theorem C10_getAllCars_excludes_unavailable :
    (∀ (db : DB) (e : CarWithRating), e ∈ getAllCars db →
      e.car.isAvailable = true ∧ e.car ∈ db.cars ∧
      e.averageRating =
        avgRatingOf (db.reviews.filter (fun r => r.carId == e.car.id)) ∧
      e.reviewCount =
        (db.reviews.filter (fun r => r.carId == e.car.id)).length) ∧
    (∀ (db : DB) (e : CarWithRating), e ∈ getAllCars db →
      db.reviews.filter (fun r => r.carId == e.car.id) = [] →
      e.averageRating = 0) ∧
    (∀ (db : DB) (c : Car), c ∈ db.cars → c.isAvailable = true →
      ∃ e ∈ getAllCars db, e.car = c) ∧
    (∀ (db : DB) (c : Car), c ∈ db.cars → c.isAvailable = false →
      ∀ e ∈ getAllCars db, e.car ≠ c) ∧
    (∀ db : DB,
      adminTotalCars db = (db.cars.filter (fun c => c.isAvailable)).length) ∧
    (∀ (db : DB) (e : CarWithRating × Option User), e ∈ adminCars db →
      e.1.car.isAvailable = true ∧
      e.2 = getUser db e.1.car.ownerId) := by
  have hmain : ∀ (db : DB) (e : CarWithRating), e ∈ getAllCars db →
      e.car.isAvailable = true ∧ e.car ∈ db.cars ∧
      e.averageRating =
        avgRatingOf (db.reviews.filter (fun r => r.carId == e.car.id)) ∧
      e.reviewCount =
        (db.reviews.filter (fun r => r.carId == e.car.id)).length := by
    intro db e he
    obtain ⟨c, hc, rfl⟩ := List.mem_map.mp he
    refine ⟨(List.mem_filter.mp hc).2, (List.mem_filter.mp hc).1, ?_, rfl⟩
    show (if (db.reviews.filter (fun r => r.carId == c.id)).length > 0
      then ((db.reviews.filter (fun r => r.carId == c.id)).map
        (fun r => (r.rating : Rat))).sum /
          (((db.reviews.filter (fun r => r.carId == c.id)).length : Nat) : Rat)
      else 0) = _
    unfold avgRatingOf
    by_cases hl : (db.reviews.filter (fun r => r.carId == c.id)).length = 0
    · simp [hl]
    · simp [hl, Nat.pos_of_ne_zero hl]
  refine ⟨hmain, ?_, ?_, ?_, ?_, ?_⟩
  · intro db e he hempty
    rw [(hmain db e he).2.2.1, hempty]
    rfl
  · intro db c hc hav
    exact ⟨_, List.mem_map.mpr ⟨c, List.mem_filter.mpr ⟨hc, hav⟩, rfl⟩, rfl⟩
  · intro db c _ hcnot e he hec
    have := (hmain db e he).1
    rw [hec, hcnot] at this
    exact Bool.false_ne_true this
  · intro db
    exact (db.cars.filter (fun c => c.isAvailable)).length_map _
  · intro db e he
    obtain ⟨e1, he1, rfl⟩ := List.mem_map.mp he
    exact ⟨(hmain db e1 he1).1, rfl⟩

/-- Witness for C10: in a store where car 1's flag is true and car 2's is
false, the listing contains an entry for car 1, none for car 2, and the
admin `totalCars` statistic counts 1 of the 2 cars. -/
theorem C10_getAllCars_witness :
    (∃ e ∈ getAllCars
        { users := [mkUser 10 "owner"],
          cars := [mkCar 1 10 true, mkCar 2 10 false],
          bookings := [], payments := [], reviews := [], nextId := 5 },
      e.car = mkCar 1 10 true) ∧
    (∀ e ∈ getAllCars
        { users := [mkUser 10 "owner"],
          cars := [mkCar 1 10 true, mkCar 2 10 false],
          bookings := [], payments := [], reviews := [], nextId := 5 },
      e.car ≠ mkCar 2 10 false) ∧
    adminTotalCars
        { users := [mkUser 10 "owner"],
          cars := [mkCar 1 10 true, mkCar 2 10 false],
          bookings := [], payments := [], reviews := [], nextId := 5 } = 1 := by
  refine ⟨C10_getAllCars_excludes_unavailable.2.2.1 _ (mkCar 1 10 true)
      (by decide) rfl,
    C10_getAllCars_excludes_unavailable.2.2.2.1 _ (mkCar 2 10 false)
      (by decide) rfl,
    ?_⟩
  rw [C10_getAllCars_excludes_unavailable.2.2.2.2.1]
  decide

end JavaDrive
